import Mathlib

/-!
Shallow embedding of the CloudFiles storage driver
(libcloud/storage/drivers/cloudfiles.py) and proofs about it.

Machine integers of the source are modelled as Nat (Python ints are
unbounded, so no wrap-around modelling is needed).  Fallible code is
modelled with Except.  HTTP traffic is modelled by explicit lists of
request records; server responses (status codes, headers, decoded JSON
bodies) are passed in as parameters, since the transport layer is an
external collaborator.
-/

/-- Errors raised by the driver.  Each constructor stands for one of the
exception classes raised in cloudfiles.py, carrying the payload fields the
source sets.  `unexpectedStatus` stands for
`LibcloudError("Unexpected status code: %s" % status)` (and for the
`"status_code=%s"` variant in `_put_object`), carrying the raw status. -/
inductive Err where
  | libcloudError (value : String)
  | unexpectedStatus (status : Nat)
  | objectHashMismatch (value : String) (objectName : String)
  | invalidContainerName (value : String) (containerName : String)
  | containerDoesNotExist (containerName : String)
  | containerIsNotEmpty (containerName : String)
  | containerAlreadyExists (containerName : String)
  | objectDoesNotExist (objectName : String)
  deriving Repr, DecidableEq

/-- Result value of a successful upload / metadata fetch: the fields of the
`Object` constructor that the claims mention (name, size, hash). -/
structure ObjRec where
  name : String
  size : Nat
  hash : Option String
  deriving Repr, DecidableEq

/-- Result value of container operations: name plus the advisory extra
fields (`object_count`, `bytes`); absent dictionary keys are `none`. -/
structure ContainerRec where
  name : String
  objectCount : Option Nat
  sizeBytes : Option Nat
  deriving Repr, DecidableEq

/-- One HTTP request issued through `self.connection.request`. -/
structure HttpReq where
  method : String
  path : String
  headers : List (String × String)
  body : String
  deriving Repr, DecidableEq

instance {ε α : Type} [DecidableEq ε] [DecidableEq α] :
    DecidableEq (Except ε α) := fun a b =>
  match a, b with
  | .ok x, .ok y =>
      if h : x = y then isTrue (by rw [h])
      else isFalse (by intro hh; cases hh; exact h rfl)
  | .error x, .error y =>
      if h : x = y then isTrue (by rw [h])
      else isFalse (by intro hh; cases hh; exact h rfl)
  | .ok _, .error _ => isFalse (by intro hh; cases hh)
  | .error _, .ok _ => isFalse (by intro hh; cases hh)

/-- The sixteen hexadecimal digit characters, uppercase. -/
def hexChars : List Char := "0123456789ABCDEF".toList

/-- Hex digit of a value below 16 (taken mod 16 to stay total). -/
def hexDigit (n : Nat) : Char := hexChars.getD (n % 16) '0'

/-- Characters that URL quoting leaves untouched: unreserved characters
plus the default safe character of the quoting routine, the slash. -/
def isSafeChar (c : Char) : Bool :=
  c.isAlphanum || c == '_' || c == '.' || c == '-' || c == '~' || c == '/'

/-- Percent-encoding of one character (ASCII-level; the claims only use
ASCII names). -/
def quoteChar (c : Char) : List Char :=
  if isSafeChar c then [c]
  else ['%', hexDigit (c.toNat / 16), hexDigit (c.toNat % 16)]

/-- Modelled from the spec: `urlquote` from libcloud.utils.py3 is imported
by cloudfiles.py but its definition is not under src/.  It is the standard
URL percent-encoding with the slash kept safe, consistent with the spec
examples in which container and object names appear unencoded. -/
def urlquote (l : List Char) : List Char := l.flatMap quoteChar

/-- `name[1:] if name.startswith('/')` from `_clean_container_name`. -/
def stripLeadingSlash : List Char → List Char
  | '/' :: t => t
  | l => l

/-- `CloudFilesStorageDriver._clean_container_name`: strip one leading
slash, URL-quote, then reject names whose quoted form contains a slash or
exceeds 256 bytes. -/
def clean_container_name (s : String) : Except Err String :=
  let name := stripLeadingSlash s.data
  let name := urlquote name
  if '/' ∈ name then
    .error (.invalidContainerName "Container name cannot contain slashes"
              (String.mk name))
  else if name.length > 256 then
    .error (.invalidContainerName
              "Container name cannot be longer than 256 bytes"
              (String.mk name))
  else
    .ok (String.mk name)

/-- `CloudFilesStorageDriver._clean_object_name`: URL-quote the name. -/
def clean_object_name (s : String) : String := String.mk (urlquote s.data)

/-- Does a driver result carry an `InvalidContainerNameError`? -/
def isInvalidNameErr {α : Type} : Except Err α → Bool
  | .error (.invalidContainerName _ _) => true
  | _ => false

/-- Does a driver result carry an `ObjectHashMismatchError`? -/
def isHashMismatchErr {α : Type} : Except Err α → Bool
  | .error (.objectHashMismatch _ _) => true
  | _ => false

/-- Does a driver result carry the unexpected-status `LibcloudError`? -/
def isUnexpectedStatusErr {α : Type} : Except Err α → Bool
  | .error (.unexpectedStatus _) => true
  | _ => false

/-- `'%08d' % n`: decimal representation left-padded with zeros to width
eight (wider numbers keep all their digits, as in Python). -/
def pad8 (n : Nat) : String :=
  let s := toString n
  String.mk (List.replicate (8 - s.length) '0') ++ s

/-- The segments yielded by iterating `FileChunkReader(file_path, C)`
(`total` is the file size; iteration starts at `bytes_read = 0`).  Each
`next` call takes `start = bytes_read`, `end = start + C`, clips `end` to
`total` and stops after a clipped segment; consequently the stop
condition is `total ≤ bytes_read + C`.  The extra `C = 0` disjunct
totalises the Python code, which loops forever when `C = 0`; all claims
assume `C > 0`. -/
def FileChunkReader_segments (total C bytesRead : Nat) : List (Nat × Nat) :=
  if h : C = 0 ∨ total ≤ bytesRead + C then
    [(bytesRead, total)]
  else
    (bytesRead, bytesRead + C) ::
      FileChunkReader_segments total C (bytesRead + C)
termination_by total - bytesRead
decreasing_by
  push_neg at h
  omega

/-- Observable actions of one `ChunkStreamReader`: a read of `len` bytes
handed to the consumer, or the closing of the file handle. -/
inductive CSREvent where
  | read (len : Nat)
  | close
  deriving Repr, DecidableEq

/-- The sequence of observable actions of driving
`ChunkStreamReader(file_path, start_block, end_block, chunk_size)` to its
end-of-sequence signal, starting from a given `bytes_read`.  Each call
yields `chunk_size` bytes, except that when `bytes_read + chunk_size`
exceeds `end_block - start_block` the block is clipped to the remainder
and the stop flag is set; the call made after the stop flag is set closes
the file handle and signals end-of-sequence (here: the trailing `close`
event).  Block lengths assume each underlying `fd.read(n)` returns `n`
bytes.  The `chunk_size = 0` guard totalises the Python code, which loops
forever in that case; the multipart path always passes 8192. -/
def ChunkStreamReader_events (start_block end_block chunk_size bytesRead :
    Nat) : List CSREvent :=
  if h : chunk_size = 0 then []
  else if h2 : end_block - start_block < bytesRead + chunk_size then
    [CSREvent.read (end_block - start_block - bytesRead), CSREvent.close]
  else
    CSREvent.read chunk_size ::
      ChunkStreamReader_events start_block end_block chunk_size
        (bytesRead + chunk_size)
termination_by end_block - start_block - bytesRead
decreasing_by
  push_neg at h2
  omega

/-- The lengths of the `read` events of an event trace. -/
def readLens : List CSREvent → List Nat
  | [] => []
  | CSREvent.read n :: t => n :: readLens t
  | CSREvent.close :: t => readLens t

/-- Python truthiness of `headers.get('etag', None)`: `None` and the empty
string are falsy. -/
def etagFalsy : Option String → Bool
  | none => true
  | some s => s.isEmpty

/-- `'%s' % x` for a string-or-None value. -/
def optStr : Option String → String
  | some s => s
  | none => "None"

/-- The message of `ObjectHashMismatchError` as formatted in the source:
`'MD5 hash checksum does not match (expected=%s, actual=%s)'`. -/
def mismatchMsg (expected actual : String) : String :=
  "MD5 hash checksum does not match (expected=" ++ expected ++
    ", actual=" ++ actual ++ ")"

/-- `CloudFilesStorageDriver._put_object`, from the point where the
request has been made (`_upload_object` is an inherited helper outside
src/; the spec says it issues one PUT and reports the transferred byte
count and the streaming digest, which enter here as parameters
`bytesTransferred` and `dataHash`; `status` and `serverHash` are the
response status and its `etag` header).  The dispatch chain is the
source's: 417 first, then the missing-etag check, then the digest
comparison, then 201, then the unexpected-status fallthrough. -/
def put_object (objectName : String) (verifyHash : Bool) (status : Nat)
    (serverHash : Option String) (dataHash : String)
    (bytesTransferred : Nat) : Except Err ObjRec :=
  if status = 417 then
    .error (.libcloudError "Missing content-type header")
  else if verifyHash && etagFalsy serverHash then
    -- source text: "Server didn't return etag" (apostrophe elided)
    .error (.libcloudError "Server did not return etag")
  else if verifyHash && (serverHash != some dataHash) then
    .error (.objectHashMismatch (mismatchMsg dataHash (optStr serverHash))
              objectName)
  else if status = 201 then
    .ok { name := objectName, size := bytesTransferred, hash := serverHash }
  else
    .error (.unexpectedStatus status)

/-- `CloudFilesStorageDriver._upload_object_manifest`.  `hexdigest` is the
driver hash function (`_get_hash_function`, outside src/, abstracted as a
parameter); `etag` is the `etag` header of the server response.  Returns
the driver result and the list of HTTP requests issued. -/
def upload_object_manifest (hexdigest : String → String)
    (authToken containerName objectName : String) (verifyHash : Bool)
    (etag : Option String) : Except Err ObjRec × List HttpReq :=
  match clean_container_name containerName with
  | .error e => (.error e, [])
  | .ok cc =>
      let co := clean_object_name objectName
      let requestPath := "/" ++ cc ++ "/" ++ co
      let hdrs := [("X-Auth-Token", authToken),
                   ("X-Object-Manifest", cc ++ "/" ++ co ++ "/")]
      let data := ""
      let req : HttpReq :=
        { method := "PUT", path := requestPath, headers := hdrs,
          body := data }
      if verifyHash then
        let dataHash := hexdigest data
        if etag == some dataHash then
          (.ok { name := objectName, size := 0, hash := etag }, [req])
        else
          (.error (.objectHashMismatch
                     (mismatchMsg dataHash (optStr etag)) objectName),
           [req])
      else
        (.ok { name := objectName, size := 0, hash := none }, [req])

/-- `CloudFilesStorageDriver._get_more`: one pagination step.  `objects`
is the decoded entity list of a 200 response (`_to_object_list` output). -/
def get_more (status : Nat) (objects : List ObjRec) :
    Except Err (List ObjRec × Option String × Bool) :=
  if status = 204 then
    .ok ([], none, true)
  else if status = 200 then
    match h : objects.getLast? with
    | none => .ok ([], none, true)
    | some lastObj => .ok (objects, some lastObj.name, false)
  else
    .error (.unexpectedStatus status)

/-- `CloudFilesStorageDriver.list_containers`.  `entries` is the decoded
JSON body of a 200 response: name, `count`, `bytes` per container. -/
def list_containers (status : Nat) (entries : List (String × Nat × Nat)) :
    Except Err (List ContainerRec) :=
  if status = 204 then .ok []
  else if status = 200 then
    .ok (entries.map (fun e =>
      { name := e.1, objectCount := some e.2.1, sizeBytes := some e.2.2 }))
  else .error (.unexpectedStatus status)

/-- `CloudFilesStorageDriver.get_container` (HEAD on the container;
`bytesUsed` and `objCount` are the two `x-container-*` headers, already
defaulted to 0 as in `_headers_to_container`). -/
def get_container (containerName : String) (status : Nat)
    (bytesUsed objCount : Nat) : Except Err ContainerRec :=
  if status = 204 then
    .ok { name := containerName, objectCount := some objCount,
          sizeBytes := some bytesUsed }
  else if status = 404 then
    .error (.containerDoesNotExist containerName)
  else
    .error (.unexpectedStatus status)

/-- `CloudFilesStorageDriver.get_object`: first a `get_container`, then a
HEAD on the object.  `contentLength` and `etag` are the corresponding
response headers (`_headers_to_object`). -/
def get_object (containerName objectName : String)
    (containerStatus containerBytesUsed containerObjCount objStatus
      contentLength : Nat) (etag : Option String) : Except Err ObjRec :=
  match get_container containerName containerStatus containerBytesUsed
      containerObjCount with
  | .error e => .error e
  | .ok _ =>
      if objStatus = 200 ∨ objStatus = 204 then
        .ok { name := objectName, size := contentLength, hash := etag }
      else if objStatus = 404 then
        .error (.objectDoesNotExist objectName)
      else
        .error (.unexpectedStatus objStatus)

/-- `CloudFilesStorageDriver.create_container`: clean the name (possibly
aborting before any request), then PUT; 201 creates, 202 means the
container already exists, anything else is unexpected.  Returns the
result and the requests issued. -/
def create_container (containerName : String) (status : Nat) :
    Except Err ContainerRec × List HttpReq :=
  match clean_container_name containerName with
  | .error e => (.error e, [])
  | .ok n =>
      let req : HttpReq :=
        { method := "PUT", path := "/" ++ n, headers := [], body := "" }
      if status = 201 then
        (.ok { name := n, objectCount := some 0, sizeBytes := none }, [req])
      else if status = 202 then
        (.error (.containerAlreadyExists n), [req])
      else
        (.error (.unexpectedStatus status), [req])

/-- `CloudFilesStorageDriver.delete_container`: clean the name (possibly
aborting before any request), then DELETE; 204 returns `True`, 404 raises
container-not-found, 409 raises container-not-empty — and on any other
status the source falls off the end of the function and returns `None`
(modelled as `.ok none`; the successful branch is `.ok (some true)`). -/
def delete_container (containerName : String) (status : Nat) :
    Except Err (Option Bool) × List HttpReq :=
  match clean_container_name containerName with
  | .error e => (.error e, [])
  | .ok n =>
      let req : HttpReq :=
        { method := "DELETE", path := "/" ++ n, headers := [], body := "" }
      if status = 204 then (.ok (some true), [req])
      else if status = 404 then (.error (.containerDoesNotExist n), [req])
      else if status = 409 then (.error (.containerIsNotEmpty n), [req])
      else (.ok none, [req])

/-- `CloudFilesStorageDriver.delete_object`: clean both names, DELETE;
204 returns `True`, 404 raises object-not-found, else unexpected. -/
def delete_object (containerName objectName : String) (status : Nat) :
    Except Err Bool × List HttpReq :=
  match clean_container_name containerName with
  | .error e => (.error e, [])
  | .ok cn =>
      let obn := clean_object_name objectName
      let req : HttpReq :=
        { method := "DELETE", path := "/" ++ cn ++ "/" ++ obn,
          headers := [], body := "" }
      if status = 204 then (.ok true, [req])
      else if status = 404 then (.error (.objectDoesNotExist obn), [req])
      else (.error (.unexpectedStatus status), [req])

/-- `part_name = object_name + '/%08d' % part_number`
(`_upload_object_part`). -/
def part_name (objectName : String) (i : Nat) : String :=
  objectName ++ "/" ++ pad8 i

/-- One record per `_put_object` / `_upload_object_manifest` call made by
the multipart path, carrying the object name handed to the call (before
URL cleaning) and the content type fixed by the caller.  The
`deleteObjectReq` constructor exists so that the absence of cleanup
deletions is expressible; the multipart path never emits one. -/
inductive UploadReq where
  | objectPut (objectName : String) (contentType : Option String)
  | manifestPut (objectName : String)
  | deleteObjectReq (objectName : String)
  deriving Repr, DecidableEq

/-- The part-upload PUT issued by `_upload_object_part` for part `i`:
name suffixed with the zero-padded index, content type fixed to
`application/octet-stream`. -/
def partPutReq (objectName : String) (i : Nat) : UploadReq :=
  UploadReq.objectPut (part_name objectName i)
    (some "application/octet-stream")

/-- The part-upload loop of `ex_multipart_upload_object`, on the index
components of the enumerated segments.  `partOk i` says whether the
upload of part `i` completes; a part whose upload raises terminates the
loop with the exception (flag `false`): no later part is attempted and
nothing is deleted. -/
def runParts (objectName : String) (partOk : Nat → Bool) :
    List Nat → List UploadReq × Bool
  | [] => ([], true)
  | i :: rest =>
      if partOk i then
        let r := runParts objectName partOk rest
        (partPutReq objectName i :: r.1, r.2)
      else ([partPutReq objectName i], false)

/-- `CloudFilesStorageDriver.ex_multipart_upload_object`, as the sequence
of upload requests it issues and whether it runs to completion.  Size
below the threshold delegates to `upload_object` (one plain PUT of the
whole object, content type not forced); otherwise one part upload per
`FileChunkReader` segment, in index order, followed by the manifest PUT —
which is only reached when every part upload completed. -/
def ex_multipart_upload_object (S C : Nat) (objectName : String)
    (partOk : Nat → Bool) : List UploadReq × Bool :=
  if S < C then
    ([UploadReq.objectPut objectName none], true)
  else
    let segs := FileChunkReader_segments S C 0
    let r := runParts objectName partOk ((segs.enum).map Prod.fst)
    (r.1 ++ (if r.2 then [UploadReq.manifestPut objectName] else []), r.2)

/-! ### Lemmas about `FileChunkReader_segments` -/

lemma list_range_one : List.range 1 = [0] := by
  simp [List.range_succ]

lemma fcr_closed (C : Nat) (hC : 0 < C) :
    ∀ k total bytesRead, total - bytesRead ≤ k → bytesRead ≤ total →
      FileChunkReader_segments total C bytesRead =
        (List.range (max 1 ((total - bytesRead + C - 1) / C))).map
          (fun i => (bytesRead + i * C,
                     bytesRead + min ((i + 1) * C) (total - bytesRead))) := by
  intro k
  induction k with
  | zero =>
      intro total bytesRead hk hle
      have hbt : bytesRead = total := by omega
      subst hbt
      rw [FileChunkReader_segments,
          dif_pos (Or.inr (by omega : bytesRead ≤ bytesRead + C))]
      have h1 : (bytesRead - bytesRead + C - 1) / C = 0 :=
        Nat.div_eq_of_lt (by omega)
      rw [h1, max_eq_left (Nat.zero_le 1), list_range_one]
      simp only [List.map_cons, List.map_nil, List.cons.injEq,
        Prod.mk.injEq, and_true]
      constructor <;> omega
  | succ k ih =>
      intro total bytesRead hk hle
      rw [FileChunkReader_segments]
      by_cases hstop : total ≤ bytesRead + C
      · rw [dif_pos (Or.inr hstop)]
        have h1 : (total - bytesRead + C - 1) / C < 2 :=
          (Nat.div_lt_iff_lt_mul hC).2 (by omega)
        have h2 : max 1 ((total - bytesRead + C - 1) / C) = 1 :=
          max_eq_left (Nat.lt_succ_iff.mp h1)
        rw [h2, list_range_one]
        simp only [List.map_cons, List.map_nil, List.cons.injEq,
          Prod.mk.injEq, and_true]
        constructor <;> omega
      · have hcond : ¬(C = 0 ∨ total ≤ bytesRead + C) := by omega
        rw [dif_neg hcond]
        rw [ih total (bytesRead + C) (by omega) (by omega)]
        have harg : total - (bytesRead + C) + C - 1 = total - bytesRead - 1 :=
          by omega
        rw [harg]
        have hn' : 1 ≤ (total - bytesRead - 1) / C :=
          (Nat.one_le_div_iff hC).2 (by omega)
        have hmax1 : max 1 ((total - bytesRead - 1) / C)
            = (total - bytesRead - 1) / C := max_eq_right hn'
        have hbig : (total - bytesRead + C - 1) / C
            = (total - bytesRead - 1) / C + 1 := by
          have e1 : total - bytesRead + C - 1 - C = total - bytesRead - 1 :=
            by omega
          rw [Nat.div_eq_sub_div hC (by omega), e1]
        have hmax2 : max 1 ((total - bytesRead + C - 1) / C)
            = (total - bytesRead - 1) / C + 1 := by
          rw [hbig]
          exact max_eq_right (Nat.succ_le_succ (Nat.zero_le _))
        rw [hmax1, hmax2, List.range_succ_eq_map, List.map_cons,
            List.map_map]
        simp only [List.cons.injEq]
        constructor
        · simp only [Prod.mk.injEq]
          constructor <;> omega
        · apply List.map_congr_left
          intro i hi
          simp only [Function.comp_apply, Nat.succ_eq_add_one,
            Prod.mk.injEq, add_mul, one_mul]
          constructor <;>
            (generalize i * C = P; omega)

lemma fcr_length (S C : Nat) (hC : 0 < C) (hS : 0 < S) :
    (FileChunkReader_segments S C 0).length = (S + C - 1) / C := by
  rw [fcr_closed C hC S S 0 (by omega) (Nat.zero_le S)]
  rw [List.length_map, List.length_range]
  simp only [Nat.sub_zero]
  exact max_eq_right ((Nat.one_le_div_iff hC).2 (by omega))

lemma fcr_get (S C : Nat) (hC : 0 < C) (i : Nat)
    (h : i < (FileChunkReader_segments S C 0).length) :
    (FileChunkReader_segments S C 0).get ⟨i, h⟩
      = (i * C, min ((i + 1) * C) S) := by
  have hcl := fcr_closed C hC S S 0 (le_refl S) (Nat.zero_le S)
  rw [List.get_of_eq hcl]
  simp

lemma fcr_ne_nil (total C bytesRead : Nat) :
    FileChunkReader_segments total C bytesRead ≠ [] := by
  rw [FileChunkReader_segments]
  split <;> simp

lemma getLast?_cons_of_ne_nil {α : Type} (a : α) {l : List α}
    (h : l ≠ []) : (a :: l).getLast? = l.getLast? := by
  cases l with
  | nil => exact absurd rfl h
  | cons b t => rfl

lemma fcr_getLast_snd (total C bytesRead : Nat) :
    (FileChunkReader_segments total C bytesRead).getLast?.map Prod.snd
      = some total := by
  induction bytesRead using FileChunkReader_segments.induct total C with
  | case1 b h =>
      rw [FileChunkReader_segments, dif_pos h]
      rfl
  | case2 b h ih =>
      rw [FileChunkReader_segments, dif_neg h,
          getLast?_cons_of_ne_nil _ (fcr_ne_nil total C (b + C)), ih]

lemma fcr_lastLen (total C bytesRead : Nat) :
    (FileChunkReader_segments total C bytesRead).getLast?.map
        (fun p => p.2 - p.1)
      = some (if (total - bytesRead) % C = 0 ∧ 0 < total - bytesRead
              then C else (total - bytesRead) % C) := by
  induction bytesRead using FileChunkReader_segments.induct total C with
  | case1 b h =>
      rw [FileChunkReader_segments, dif_pos h]
      have hcomp : ([(b, total)].getLast?.map (fun p => p.2 - p.1))
          = some (total - b) := rfl
      rw [hcomp]
      congr 1
      rcases h with hC0 | hle
      · subst hC0
        rw [Nat.mod_zero, if_neg (by omega)]
      · by_cases h1 : (total - b) % C = 0 ∧ 0 < total - b
        · rw [if_pos h1]
          rcases Nat.lt_or_ge (total - b) C with hlt | hge
          · exfalso
            have h2 := h1.1
            rw [Nat.mod_eq_of_lt hlt] at h2
            omega
          · omega
        · rw [if_neg h1]
          rcases Nat.lt_or_ge (total - b) C with hlt | hge
          · exact (Nat.mod_eq_of_lt hlt).symm
          · have hRC : total - b = C := by omega
            rw [hRC, Nat.mod_self]
            push_neg at h1
            have h3 := h1 (by rw [hRC]; exact Nat.mod_self C)
            omega
  | case2 b h ih =>
      rw [FileChunkReader_segments, dif_neg h,
          getLast?_cons_of_ne_nil _ (fcr_ne_nil total C (b + C)), ih]
      have e1 : total - (b + C) = total - b - C := by omega
      have h2 : (total - b) % C = (total - b - C) % C :=
        Nat.mod_eq_sub_mod (by omega)
      rw [e1, ← h2]
      generalize (total - b) % C = M
      by_cases hM0 : M = 0
      · rw [if_pos ⟨hM0, by omega⟩, if_pos ⟨hM0, by omega⟩]
      · rw [if_neg (fun hc => hM0 hc.1), if_neg (fun hc => hM0 hc.1)]

lemma mul_lt_of_lt_ceilDiv (S C i : Nat) (hC : 0 < C)
    (h : i < (S + C - 1) / C) : i * C < S := by
  have h2 : (i + 1) * C ≤ S + C - 1 :=
    (Nat.le_div_iff_mul_le hC).1 (by omega)
  rw [add_mul, one_mul] at h2
  generalize i * C = P at h2 ⊢
  omega

/-! ### Lemmas about `ChunkStreamReader_events` -/

lemma csr_closed (s e B : Nat) (hB : 0 < B) :
    ∀ k bytesRead, e - s - bytesRead ≤ k →
      ChunkStreamReader_events s e B bytesRead =
        ((List.replicate ((e - s - bytesRead) / B) B).map CSREvent.read)
          ++ [CSREvent.read ((e - s - bytesRead) % B), CSREvent.close] := by
  intro k
  induction k with
  | zero =>
      intro bytesRead hk
      rw [ChunkStreamReader_events, dif_neg (by omega : ¬ B = 0),
          dif_pos (by omega : e - s < bytesRead + B)]
      have h0 : e - s - bytesRead = 0 := by omega
      rw [h0, Nat.zero_div, Nat.zero_mod]
      rfl
  | succ k ih =>
      intro bytesRead hk
      by_cases hstop : e - s < bytesRead + B
      · rw [ChunkStreamReader_events, dif_neg (by omega : ¬ B = 0),
            dif_pos hstop]
        have hlt : e - s - bytesRead < B := by omega
        rw [Nat.div_eq_of_lt hlt, Nat.mod_eq_of_lt hlt]
        rfl
      · rw [ChunkStreamReader_events, dif_neg (by omega : ¬ B = 0),
            dif_neg hstop]
        rw [ih (bytesRead + B) (by omega)]
        have e1 : e - s - (bytesRead + B) = e - s - bytesRead - B := by
          omega
        rw [e1]
        have hge : B ≤ e - s - bytesRead := by omega
        rw [show (e - s - bytesRead) / B = (e - s - bytesRead - B) / B + 1
              from Nat.div_eq_sub_div hB hge,
            show (e - s - bytesRead) % B = (e - s - bytesRead - B) % B
              from Nat.mod_eq_sub_mod hge,
            List.replicate_succ, List.map_cons, List.cons_append]

lemma readLens_shape (n B x : Nat) :
    readLens ((List.replicate n B).map CSREvent.read
        ++ [CSREvent.read x, CSREvent.close])
      = List.replicate n B ++ [x] := by
  induction n with
  | zero => rfl
  | succ n ih =>
      rw [List.replicate_succ, List.map_cons, List.cons_append, readLens,
          ih, List.cons_append]

lemma count_close_map_read (l : List Nat) :
    (l.map CSREvent.read).count CSREvent.close = 0 := by
  rw [List.count_eq_zero]
  intro hmem
  rcases List.mem_map.1 hmem with ⟨a, _, ha⟩
  exact absurd ha (by simp)


/-! ### Claim C1 -/

/-- Claim C1 (amended): for every file size `S > 0` and chunk size
`C > 0`, iterating `FileChunkReader(file_path, C)` yields exactly
`⌈S/C⌉` segments whose offset pairs are ascending and contiguous and
partition `[0, S)` with no gap or overlap; the last segment has length
`S mod C`, or exactly `C` when `S mod C = 0` (no empty trailing segment
for exact multiples).  The amendment restricts the claim to `S > 0`: on
an empty file the reader yields one empty segment `(0, 0)` instead of
zero segments (see the counterexample). -/
theorem claim_C1_segments (S C : Nat) (hC : 0 < C) (hS : 0 < S) :
    (FileChunkReader_segments S C 0).length = (S + C - 1) / C ∧
    (∀ i, ∀ h : i < (FileChunkReader_segments S C 0).length,
      (FileChunkReader_segments S C 0).get ⟨i, h⟩
        = (i * C, min ((i + 1) * C) S)) ∧
    (∀ h : 0 < (FileChunkReader_segments S C 0).length,
      ((FileChunkReader_segments S C 0).get ⟨0, h⟩).1 = 0) ∧
    (∀ i, ∀ h : i + 1 < (FileChunkReader_segments S C 0).length,
      ((FileChunkReader_segments S C 0).get ⟨i, by omega⟩).2
        = ((FileChunkReader_segments S C 0).get ⟨i + 1, h⟩).1) ∧
    (∀ i, ∀ h : i < (FileChunkReader_segments S C 0).length,
      ((FileChunkReader_segments S C 0).get ⟨i, h⟩).1
        < ((FileChunkReader_segments S C 0).get ⟨i, h⟩).2) ∧
    ((FileChunkReader_segments S C 0).getLast?.map Prod.snd = some S) ∧
    ((FileChunkReader_segments S C 0).getLast?.map (fun p => p.2 - p.1)
        = some (if S % C = 0 then C else S % C)) := by
  refine ⟨fcr_length S C hC hS, fcr_get S C hC, ?_, ?_, ?_, ?_, ?_⟩
  · intro h
    rw [fcr_get S C hC 0 h]
    simp
  · intro i h
    rw [fcr_get S C hC i (by omega), fcr_get S C hC (i + 1) h]
    have hn : i + 1 < (S + C - 1) / C := by
      rw [← fcr_length S C hC hS]
      exact h
    have hlt := mul_lt_of_lt_ceilDiv S C (i + 1) hC hn
    simp only [min_eq_left (Nat.le_of_lt hlt)]
  · intro i h
    rw [fcr_get S C hC i h]
    have hn : i < (S + C - 1) / C := by
      rw [← fcr_length S C hC hS]
      exact h
    refine lt_min_iff.2 ⟨?_, mul_lt_of_lt_ceilDiv S C i hC hn⟩
    rw [add_mul, one_mul]
    omega
  · have h6 := fcr_getLast_snd S C 0
    exact h6
  · have h7 := fcr_lastLen S C 0
    rw [Nat.sub_zero] at h7
    rw [h7]
    congr 1
    by_cases hmod : S % C = 0
    · rw [if_pos ⟨hmod, hS⟩, if_pos hmod]
    · rw [if_neg (fun hc => hmod hc.1), if_neg hmod]

/-- Witness for C1 at `S = 5`, `C = 2`. -/
theorem claim_C1_segments_witness :
    (FileChunkReader_segments 5 2 0).length = (5 + 2 - 1) / 2 ∧
    (FileChunkReader_segments 5 2 0).getLast?.map (fun p => p.2 - p.1)
      = some (if 5 % 2 = 0 then 2 else 5 % 2) :=
  ⟨(claim_C1_segments 5 2 (by decide) (by decide)).1,
   (claim_C1_segments 5 2 (by decide) (by decide)).2.2.2.2.2.2⟩

/-- Counterexample to C1 as stated: a file of size 0 with chunk size 1
yields one (empty) segment, not `⌈0/1⌉ = 0` segments. -/
theorem claim_C1_counterexample :
    ¬ (FileChunkReader_segments 0 1 0).length = (0 + 1 - 1) / 1 := by
  rw [FileChunkReader_segments,
      dif_pos (Or.inr (by omega : (0 : Nat) ≤ 0 + 1))]
  decide

/-! ### Claim C10 -/

/-- Claim C10: for a `ChunkStreamReader` over `[start, end)` with block
size `B > 0` (8192 in the multipart path), driving it to its
end-of-sequence signal: the block lengths are `⌈(end-start)/B⌉` full
blocks followed by the remainder — in particular, when `end - start` is a
positive exact multiple of `B` one extra zero-length block follows the
data blocks, and a zero-length range yields exactly one zero-length
block; the cumulative length of the yielded blocks (each underlying read
assumed full) is exactly `end - start`; and the file handle is closed
exactly once, on the call that signals end-of-sequence (the final event
of the trace). -/
theorem claim_C10_stream_reader (s e B : Nat) (hB : 0 < B) :
    (readLens (ChunkStreamReader_events s e B 0)
        = List.replicate ((e - s) / B) B ++ [(e - s) % B]) ∧
    (B ∣ (e - s) → 0 < e - s →
      readLens (ChunkStreamReader_events s e B 0)
        = List.replicate ((e - s) / B) B ++ [0]) ∧
    (e - s = 0 → readLens (ChunkStreamReader_events s e B 0) = [0]) ∧
    ((readLens (ChunkStreamReader_events s e B 0)).sum = e - s) ∧
    ((ChunkStreamReader_events s e B 0).count CSREvent.close = 1) ∧
    ((ChunkStreamReader_events s e B 0).getLast? = some CSREvent.close)
    := by
  have hcl := csr_closed s e B hB (e - s) 0 (by omega)
  rw [Nat.sub_zero] at hcl
  refine ⟨?_, ?_, ?_, ?_, ?_, ?_⟩
  · rw [hcl, readLens_shape]
  · intro hdvd hpos
    rw [hcl, readLens_shape, Nat.dvd_iff_mod_eq_zero.1 hdvd]
  · intro h0
    rw [hcl, readLens_shape, h0, Nat.zero_div, Nat.zero_mod]
    rfl
  · rw [hcl, readLens_shape, List.sum_append, List.sum_replicate,
        smul_eq_mul, List.sum_cons, List.sum_nil, Nat.add_zero,
        mul_comm]
    exact Nat.div_add_mod (e - s) B
  · rw [hcl, List.count_append, count_close_map_read]
    rfl
  · rw [hcl,
        show (List.replicate ((e - s) / B) B).map CSREvent.read
              ++ [CSREvent.read ((e - s) % B), CSREvent.close]
            = ((List.replicate ((e - s) / B) B).map CSREvent.read
              ++ [CSREvent.read ((e - s) % B)]) ++ [CSREvent.close]
          from by simp,
        List.getLast?_concat]

/-- Witness for C10 at `start = 0`, `end = 4`, `B = 2` (exact multiple:
two full blocks, one trailing empty block, one close). -/
theorem claim_C10_stream_reader_witness :
    readLens (ChunkStreamReader_events 0 4 2 0)
        = List.replicate ((4 - 0) / 2) 2 ++ [0] :=
  (claim_C10_stream_reader 0 4 2 (by decide)).2.1 (by decide) (by decide)

/-! ### Claim C3 -/

/-- Claim C3 (amended): for every upload through `_put_object` with
verification requested and a response status other than 417 (a 417
response takes precedence and raises the missing-content-type error, see
the counterexample): a missing or empty server etag raises an error; a
local digest differing from the server etag raises the integrity-mismatch
error carrying both hex values in its message and the object name in its
payload; and a 201 response with matching digest returns an Object whose
size is the transferred byte count and whose hash is the server digest. -/
theorem claim_C3_put_object_verify (objectName dataHash : String)
    (status : Nat) (serverHash : Option String) (bytesTransferred : Nat)
    (hst : status ≠ 417) :
    (etagFalsy serverHash = true →
      put_object objectName true status serverHash dataHash bytesTransferred
        = .error (.libcloudError "Server did not return etag")) ∧
    (∀ s, serverHash = some s → s ≠ "" → dataHash ≠ s →
      put_object objectName true status serverHash dataHash bytesTransferred
        = .error (.objectHashMismatch (mismatchMsg dataHash s)
                    objectName)) ∧
    (status = 201 → serverHash = some dataHash → dataHash ≠ "" →
      put_object objectName true status serverHash dataHash bytesTransferred
        = .ok { name := objectName, size := bytesTransferred,
                hash := some dataHash }) := by
  refine ⟨?_, ?_, ?_⟩
  · intro hf
    simp [put_object, hst, hf]
  · intro s hsv hne hdiff
    subst hsv
    have hfalsy : etagFalsy (some s) = false := by
      simp only [etagFalsy]
      rw [Bool.eq_false_iff]
      intro hemp
      exact hne ((String.isEmpty_iff s).mp hemp)
    simp [put_object, hst, hfalsy, optStr, Ne.symm hdiff]
  · intro h201 hsv hne
    subst h201
    subst hsv
    have hfalsy : etagFalsy (some dataHash) = false := by
      simp only [etagFalsy]
      rw [Bool.eq_false_iff]
      intro hemp
      exact hne ((String.isEmpty_iff dataHash).mp hemp)
    simp [put_object, hfalsy]

/-- Witness for C3 at status 201: a mismatching digest and a matching
digest. -/
theorem claim_C3_put_object_verify_witness :
    put_object "obj" true 201 (some "bb") "aa" 5
      = .error (.objectHashMismatch (mismatchMsg "aa" "bb") "obj") ∧
    put_object "obj" true 201 (some "aa") "aa" 5
      = .ok { name := "obj", size := 5, hash := some "aa" } :=
  ⟨(claim_C3_put_object_verify "obj" "aa" 201 (some "bb") 5
      (by decide)).2.1 "bb" rfl (by decide) (by decide),
   (claim_C3_put_object_verify "obj" "aa" 201 (some "aa") 5
      (by decide)).2.2 rfl rfl (by decide)⟩

/-- Counterexample to C3 as stated: at response status 417 with
verification requested and a digest mismatch, `_put_object` raises the
missing-content-type `LibcloudError`, not the integrity-mismatch
error. -/
theorem claim_C3_counterexample :
    put_object "obj" true 417 (some "bb") "aa" 5
        = .error (.libcloudError "Missing content-type header") ∧
    isHashMismatchErr (put_object "obj" true 417 (some "bb") "aa" 5)
        = false :=
  ⟨rfl, rfl⟩

/-! ### Claim C4 -/

/-- Claim C4: the multipart finalize step issues exactly one PUT to the
base object path with an empty body and an `X-Object-Manifest` header
whose value is the cleaned container name, `/`, the cleaned object name
and a trailing `/`; with verification requested the digest compared
against the server etag is the digest of the empty string — a mismatch
(including a missing etag) raises the integrity error — and the returned
Object has size 0 and the server digest as hash. -/
theorem claim_C4_manifest (hexdigest : String → String)
    (authToken cname oname : String) (etag : Option String) (cc : String)
    (hcc : clean_container_name cname = .ok cc) :
    (∀ vh, (upload_object_manifest hexdigest authToken cname oname vh
              etag).2
        = [{ method := "PUT",
             path := "/" ++ cc ++ "/" ++ clean_object_name oname,
             headers := [("X-Auth-Token", authToken),
                         ("X-Object-Manifest",
                          cc ++ "/" ++ clean_object_name oname ++ "/")],
             body := "" }]) ∧
    (etag = some (hexdigest "") →
      (upload_object_manifest hexdigest authToken cname oname true etag).1
        = .ok { name := oname, size := 0, hash := etag }) ∧
    (etag ≠ some (hexdigest "") →
      (upload_object_manifest hexdigest authToken cname oname true etag).1
        = .error (.objectHashMismatch
            (mismatchMsg (hexdigest "") (optStr etag)) oname)) ∧
    ((upload_object_manifest hexdigest authToken cname oname false etag).1
        = .ok { name := oname, size := 0, hash := none }) := by
  unfold upload_object_manifest
  rw [hcc]
  refine ⟨?_, ?_, ?_, rfl⟩
  · intro vh
    cases vh
    · rfl
    · by_cases h : etag == some (hexdigest "") <;> simp [h]
  · intro he
    subst he
    simp
  · intro hne
    simp [hne]

/-- Witness for C4 with a one-character container name, a matching etag
and a mismatching etag. -/
theorem claim_C4_manifest_witness :
    ((upload_object_manifest (fun _ => "d41d") "tok" "c" "o" true
        (some "d41d")).1
      = .ok { name := "o", size := 0, hash := some "d41d" }) ∧
    ((upload_object_manifest (fun _ => "d41d") "tok" "c" "o" true
        none).1
      = .error (.objectHashMismatch (mismatchMsg "d41d" "None") "o")) :=
  ⟨(claim_C4_manifest (fun _ => "d41d") "tok" "c" "o" (some "d41d") "c"
      rfl).2.1 rfl,
   (claim_C4_manifest (fun _ => "d41d") "tok" "c" "o" none "c"
      rfl).2.2.1 (by decide)⟩

/-! ### Claim C5 -/

/-- Claim C5: one pagination step (`_get_more`): a 204 response yields an
empty exhausted page; a 200 response with an empty decoded list yields an
empty exhausted page; a 200 response with a nonempty list yields the
entities in server order, the last entity's name as next marker, and not
exhausted; any other status raises the unexpected-status error carrying
the raw status. -/
theorem claim_C5_get_more (status : Nat) (objects : List ObjRec) :
    (status = 204 → get_more status objects = .ok ([], none, true)) ∧
    (status = 200 → objects = [] →
      get_more status objects = .ok ([], none, true)) ∧
    (∀ lastObj, status = 200 → objects.getLast? = some lastObj →
      get_more status objects
        = .ok (objects, some lastObj.name, false)) ∧
    (status ≠ 204 → status ≠ 200 →
      get_more status objects = .error (.unexpectedStatus status)) := by
  refine ⟨?_, ?_, ?_, ?_⟩
  · intro h
    subst h
    rfl
  · intro h h2
    subst h
    subst h2
    rfl
  · intro lastObj h hlast
    subst h
    unfold get_more
    rw [if_neg (by decide), if_pos rfl]
    split
    · next heq => rw [hlast] at heq; cases heq
    · next lastO heq =>
        rw [hlast] at heq
        cases heq
        rfl
  · intro h1 h2
    unfold get_more
    rw [if_neg h1, if_neg h2]

/-- Witness for C5: 204, empty 200, nonempty 200, and a 500. -/
theorem claim_C5_get_more_witness :
    get_more 204 [] = .ok ([], none, true) ∧
    get_more 200 ([] : List ObjRec) = .ok ([], none, true) ∧
    get_more 200 [{ name := "a", size := 1, hash := none },
                  { name := "b", size := 2, hash := none }]
      = .ok ([{ name := "a", size := 1, hash := none },
              { name := "b", size := 2, hash := none }], some "b", false) ∧
    get_more 500 [] = .error (.unexpectedStatus 500) :=
  ⟨(claim_C5_get_more 204 []).1 rfl,
   (claim_C5_get_more 200 []).2.1 rfl rfl,
   (claim_C5_get_more 200 _).2.2.1
      { name := "b", size := 2, hash := none } rfl rfl,
   (claim_C5_get_more 500 []).2.2.2 (by decide) (by decide)⟩

/-! ### Claim C8 -/

/-- Claim C8: `delete_container` returns success on 204, raises the
container-not-found error on 404 and the container-not-empty error on
409 (given a name that passes local validation). -/
theorem claim_C8_delete_container (name n : String) (status : Nat)
    (hn : clean_container_name name = .ok n) :
    (status = 204 → delete_container name status
        = (.ok (some true),
           [{ method := "DELETE", path := "/" ++ n, headers := [],
              body := "" }])) ∧
    (status = 404 → delete_container name status
        = (.error (.containerDoesNotExist n),
           [{ method := "DELETE", path := "/" ++ n, headers := [],
              body := "" }])) ∧
    (status = 409 → delete_container name status
        = (.error (.containerIsNotEmpty n),
           [{ method := "DELETE", path := "/" ++ n, headers := [],
              body := "" }])) := by
  unfold delete_container
  rw [hn]
  refine ⟨?_, ?_, ?_⟩ <;> (intro h; subst h; rfl)

/-- Witness for C8 at a concrete name and all three statuses. -/
theorem claim_C8_delete_container_witness :
    delete_container "x" 204
        = (.ok (some true),
           [{ method := "DELETE", path := "/x", headers := [],
              body := "" }]) ∧
    delete_container "x" 404
        = (.error (.containerDoesNotExist "x"),
           [{ method := "DELETE", path := "/x", headers := [],
              body := "" }]) ∧
    delete_container "x" 409
        = (.error (.containerIsNotEmpty "x"),
           [{ method := "DELETE", path := "/x", headers := [],
              body := "" }]) :=
  ⟨(claim_C8_delete_container "x" "x" 204 rfl).1 rfl,
   (claim_C8_delete_container "x" "x" 404 rfl).2.1 rfl,
   (claim_C8_delete_container "x" "x" 409 rfl).2.2 rfl⟩

/-! ### Claim C9 -/

/-- Claim C9 fails on the code: `delete_container` is the one
status-dispatching operation that does not raise on an unhandled status —
it falls off the end of the function and silently returns `None`
(modelled as `.ok none`), while every sibling operation
(`list_containers`, `get_container`, `get_object`, `create_container`,
`delete_object`, `_get_more`) raises the unexpected-status error carrying
the raw status code, here evaluated at status 500. -/
theorem claim_C9_delete_container_silent :
    (delete_container "x" 500).1 = .ok none ∧
    isUnexpectedStatusErr (list_containers 500 []) = true ∧
    isUnexpectedStatusErr (get_container "x" 500 0 0) = true ∧
    isUnexpectedStatusErr (get_object "x" "o" 204 0 0 500 0 none) = true ∧
    isUnexpectedStatusErr ((create_container "x" 500).1) = true ∧
    isUnexpectedStatusErr ((delete_object "x" "o" 500).1) = true ∧
    isUnexpectedStatusErr (get_more 500 []) = true :=
  ⟨rfl, rfl, rfl, rfl, rfl, rfl, rfl⟩

/-! ### Claim C6 -/

lemma hexDigit_ne_slash (n : Nat) : hexDigit n ≠ '/' := by
  unfold hexDigit
  have hlt : n % 16 < 16 := Nat.mod_lt n (by decide)
  have hall : ∀ m, m < 16 → hexChars.getD m '0' ≠ '/' := by decide
  exact hall (n % 16) hlt

lemma slash_mem_quoteChar (c : Char) : '/' ∈ quoteChar c ↔ c = '/' := by
  unfold quoteChar
  by_cases h : isSafeChar c
  · rw [if_pos h]
    simp [eq_comm]
  · rw [if_neg h]
    constructor
    · intro hm
      exfalso
      simp only [List.mem_cons, List.not_mem_nil, or_false] at hm
      rcases hm with hm | hm | hm
      · exact absurd hm (by decide)
      · exact hexDigit_ne_slash _ hm.symm
      · exact hexDigit_ne_slash _ hm.symm
    · intro hc
      subst hc
      exact absurd (by decide : isSafeChar '/' = true) h

lemma slash_mem_urlquote (l : List Char) : '/' ∈ urlquote l ↔ '/' ∈ l := by
  unfold urlquote
  rw [List.mem_flatMap]
  constructor
  · rintro ⟨c, hc, hm⟩
    rw [slash_mem_quoteChar] at hm
    exact hm ▸ hc
  · intro h
    exact ⟨'/', h, (slash_mem_quoteChar '/').2 rfl⟩

lemma urlquote_length_ge (l : List Char) :
    l.length ≤ (urlquote l).length := by
  unfold urlquote
  induction l with
  | nil => simp
  | cons c t ih =>
      rw [List.flatMap_cons, List.length_append, List.length_cons]
      have h1 : 1 ≤ (quoteChar c).length := by
        unfold quoteChar
        split <;> simp
      omega

lemma strip_eq_of_head_ne (l : List Char) (h : l.head? ≠ some '/') :
    stripLeadingSlash l = l := by
  cases l with
  | nil => rfl
  | cons c t =>
      unfold stripLeadingSlash
      split
      · next heq =>
          rw [List.cons.injEq] at heq
          exact absurd (by rw [List.head?_cons, heq.1]) h
      · rfl

lemma urlquote_replicate_a (n : Nat) :
    urlquote (List.replicate n 'a') = List.replicate n 'a' := by
  induction n with
  | zero => rfl
  | succ n ih =>
      rw [List.replicate_succ]
      unfold urlquote at ih ⊢
      rw [List.flatMap_cons, ih, show quoteChar 'a' = ['a'] from rfl,
          List.singleton_append]

lemma strip_replicate_a (n : Nat) :
    stripLeadingSlash (List.replicate n 'a') = List.replicate n 'a' := by
  cases n with
  | zero => rfl
  | succ m => rw [List.replicate_succ]; rfl

lemma clean_replicate_a (n : Nat) (h : n ≤ 256) :
    clean_container_name (String.mk (List.replicate n 'a'))
      = .ok (String.mk (List.replicate n 'a')) := by
  have hd : (String.mk (List.replicate n 'a')).data
      = List.replicate n 'a' := rfl
  simp only [clean_container_name, hd, strip_replicate_a,
    urlquote_replicate_a]
  rw [if_neg (by simp [List.mem_replicate]),
      if_neg (by simp only [List.length_replicate]; omega)]

set_option maxRecDepth 4000 in
/-- Claim C6 (amended): local container-name validation
(`_clean_container_name`, applied first by every operation that takes a
container name, here `create_container` and `delete_container`): a name
still containing a slash after removal of one leading slash is rejected,
and a name of more than 256 characters not starting with a slash is
rejected, both with the invalid-name error and before any HTTP request is
issued; the 256-character name `aa…a` is accepted and the 257-character
name `aa…a` is rejected.  The amendment drops the empty name from the
rejected set: the code accepts the empty name (see the counterexample),
and the 256-byte limit is applied to the URL-quoted form of the name. -/
theorem claim_C6_container_name (s : String) :
    ('/' ∈ stripLeadingSlash s.data →
      isInvalidNameErr (clean_container_name s) = true) ∧
    (s.data.head? ≠ some '/' → 256 < s.data.length →
      isInvalidNameErr (clean_container_name s) = true) ∧
    (∀ e, clean_container_name s = .error e →
      isInvalidNameErr (clean_container_name s) = true →
      create_container s 201 = (.error e, []) ∧
      ∀ st, delete_container s st = (.error e, [])) ∧
    (clean_container_name (String.mk (List.replicate 256 'a'))
        = .ok (String.mk (List.replicate 256 'a'))) ∧
    (isInvalidNameErr
        (clean_container_name (String.mk (List.replicate 257 'a')))
      = true) := by
  refine ⟨?_, ?_, ?_, clean_replicate_a 256 (by omega), ?_⟩
  · intro hsl
    simp only [clean_container_name]
    rw [if_pos ((slash_mem_urlquote _).2 hsl)]
    rfl
  · intro hhead hlen
    have hstrip := strip_eq_of_head_ne s.data hhead
    simp only [clean_container_name, hstrip]
    by_cases hsl : '/' ∈ urlquote s.data
    · rw [if_pos hsl]
      rfl
    · rw [if_neg hsl, if_pos]
      · rfl
      · have h1 := urlquote_length_ge s.data
        omega
  · intro e he _
    constructor
    · unfold create_container
      rw [he]
    · intro st
      unfold delete_container
      rw [he]
  · have hd : (String.mk (List.replicate 257 'a')).data
        = List.replicate 257 'a' := rfl
    simp only [clean_container_name, hd, strip_replicate_a,
      urlquote_replicate_a]
    rw [if_neg (by simp [List.mem_replicate]),
        if_pos (by simp only [List.length_replicate]; omega)]
    rfl

/-- Witness for C6 at the slash-containing name `a/b` and the overlong
name of 257 characters: both rejected with no request issued. -/
theorem claim_C6_container_name_witness :
    isInvalidNameErr (clean_container_name "a/b") = true ∧
    isInvalidNameErr
        (clean_container_name (String.mk (List.replicate 257 'a')))
      = true ∧
    (create_container "a/b" 201
      = (.error (.invalidContainerName
                   "Container name cannot contain slashes" "a/b"), [])) :=
  ⟨(claim_C6_container_name "a/b").1 (by decide),
   (claim_C6_container_name "a/b").2.2.2.2,
   ((claim_C6_container_name "a/b").2.2.1
      (.invalidContainerName "Container name cannot contain slashes" "a/b")
      rfl rfl).1⟩

/-- Counterexample to C6 as stated: the empty container name is not
rejected — `create_container` with the empty name sends one HTTP request
(a PUT to `/`) instead of raising the invalid-name error locally. -/
theorem claim_C6_counterexample :
    (create_container "" 201).2.length = 1 ∧
    isInvalidNameErr (create_container "" 201).1 = false :=
  ⟨rfl, rfl⟩

/-! ### Claims C2 and C7 -/

lemma runParts_all_ok (objectName : String) (l : List Nat) :
    runParts objectName (fun _ => true) l
      = (l.map (partPutReq objectName), true) := by
  induction l with
  | nil => rfl
  | cons i t ih => simp [runParts, ih]

lemma runParts_fail (objectName : String) (partOk : Nat → Bool) :
    ∀ k a i, a ≤ i → i < a + k →
      (∀ j, j < i → partOk j = true) → partOk i = false →
      runParts objectName partOk (List.range' a k)
        = ((List.range' a (i + 1 - a)).map (partPutReq objectName),
           false) := by
  intro k
  induction k with
  | zero =>
      intro a i h1 h2 h3 h4
      exact absurd h2 (by omega)
  | succ k ih =>
      intro a i h1 h2 h3 h4
      rw [List.range'_succ]
      by_cases hia : i = a
      · subst hia
        simp only [runParts, h4, Bool.false_eq_true, if_false]
        rw [show i + 1 - i = 1 from by omega]
        rfl
      · have hlt : a < i := by omega
        simp only [runParts, h3 a hlt, if_true]
        rw [ih (a + 1) i (by omega) (by omega) h3 h4]
        have hm : i + 1 - a = (i + 1 - (a + 1)) + 1 := by omega
        rw [hm, List.range'_succ, List.map_cons]

/-- Claim C2: `ex_multipart_upload_object` with file size `S` and
threshold `C > 0`: when `S < C` it issues exactly one plain object PUT
(no part uploads, no manifest request); when `S ≥ C` it issues exactly
`⌈S/C⌉` part PUTs, part `i` going to the base object name suffixed with
`/` and the zero-padded 8-digit decimal index `i`, with content type
fixed to `application/octet-stream`, followed by exactly one manifest
PUT. -/
theorem claim_C2_multipart_requests (S C : Nat) (objectName : String)
    (hC : 0 < C) :
    (S < C → ex_multipart_upload_object S C objectName (fun _ => true)
        = ([UploadReq.objectPut objectName none], true)) ∧
    (C ≤ S →
      ex_multipart_upload_object S C objectName (fun _ => true)
        = ((List.range ((S + C - 1) / C)).map (fun i =>
              UploadReq.objectPut (objectName ++ "/" ++ pad8 i)
                (some "application/octet-stream"))
            ++ [UploadReq.manifestPut objectName], true)) ∧
    (C ≤ S →
      (ex_multipart_upload_object S C objectName (fun _ => true)).1.length
        = (S + C - 1) / C + 1) := by
  have hbig : C ≤ S →
      ex_multipart_upload_object S C objectName (fun _ => true)
        = ((List.range ((S + C - 1) / C)).map (fun i =>
              UploadReq.objectPut (objectName ++ "/" ++ pad8 i)
                (some "application/octet-stream"))
            ++ [UploadReq.manifestPut objectName], true) := by
    intro hge
    simp only [ex_multipart_upload_object]
    rw [if_neg (by omega)]
    rw [List.enum_map_fst, fcr_length S C hC (by omega), runParts_all_ok]
    simp [partPutReq, part_name]
  refine ⟨?_, hbig, ?_⟩
  · intro hlt
    simp only [ex_multipart_upload_object]
    rw [if_pos hlt]
  · intro hge
    rw [hbig hge]
    simp

/-- Witness for C2 at `S = 25`, `C = 10` (the spec example: 3 parts and
one manifest) and at `S = 5`, `C = 10` (single-shot). -/
theorem claim_C2_multipart_requests_witness :
    ex_multipart_upload_object 5 10 "obj" (fun _ => true)
      = ([UploadReq.objectPut "obj" none], true) ∧
    ex_multipart_upload_object 25 10 "obj" (fun _ => true)
      = ((List.range ((25 + 10 - 1) / 10)).map (fun i =>
            UploadReq.objectPut ("obj" ++ "/" ++ pad8 i)
              (some "application/octet-stream"))
          ++ [UploadReq.manifestPut "obj"], true) :=
  ⟨(claim_C2_multipart_requests 5 10 "obj" (by decide)).1 (by decide),
   (claim_C2_multipart_requests 25 10 "obj" (by decide)).2.1 (by decide)⟩

/-- Claim C7: multipart part uploads are issued sequentially in ascending
index order; when the upload of part `i` raises, the request trace is
exactly parts `0 … i` in order — no part `j > i`, no manifest request,
and no delete/cleanup request is ever issued (the trace consists solely
of part object PUTs). -/
theorem claim_C7_sequential_abort (S C i : Nat) (objectName : String)
    (partOk : Nat → Bool) (hC : 0 < C) (hge : C ≤ S)
    (hi : i < (S + C - 1) / C)
    (hok : ∀ j, j < i → partOk j = true) (hfail : partOk i = false) :
    ex_multipart_upload_object S C objectName partOk
      = ((List.range (i + 1)).map (fun j =>
            UploadReq.objectPut (objectName ++ "/" ++ pad8 j)
              (some "application/octet-stream")), false) ∧
    (ex_multipart_upload_object S C objectName partOk).1.all
        (fun r => match r with
                  | UploadReq.objectPut _ _ => true
                  | _ => false) = true := by
  have hmain : ex_multipart_upload_object S C objectName partOk
      = ((List.range (i + 1)).map (partPutReq objectName), false) := by
    simp only [ex_multipart_upload_object]
    rw [if_neg (by omega)]
    rw [List.enum_map_fst, fcr_length S C hC (by omega),
        List.range_eq_range']
    rw [runParts_fail objectName partOk ((S + C - 1) / C) 0 i
          (by omega) (by omega) hok hfail]
    simp [List.range_eq_range']
  constructor
  · rw [hmain]
    simp [partPutReq, part_name]
  · rw [hmain]
    simp only [List.all_eq_true]
    intro x hx
    rcases List.mem_map.1 hx with ⟨j, _, rfl⟩
    rfl

/-- Witness for C7 at `S = 25`, `C = 10`, part 1 failing: parts 0 and 1
are requested, part 2 and the manifest are not. -/
theorem claim_C7_sequential_abort_witness :
    ex_multipart_upload_object 25 10 "obj" (fun j => j != 1)
      = ((List.range 2).map (fun j =>
            UploadReq.objectPut ("obj" ++ "/" ++ pad8 j)
              (some "application/octet-stream")), false) :=
  (claim_C7_sequential_abort 25 10 1 "obj" (fun j => j != 1) (by decide)
    (by decide) (by decide) (by decide) rfl).1
